import Mathlib

/-!
Verification of the corpus-analysis pipeline of `CS6361_Corpus_Analysis`
(files `lexical_model/Blacklist.py` and `lexical_model/Corpus_Analysis.py`).

The Python code is shallowly embedded:
* Python sets of string literals become `List String` (membership is all the
  code ever uses of them; set sizes are modelled with `List.dedup.length`).
* Python dicts become association lists `List (key × value)`; `d.get(k, 0)`
  becomes lookup-with-default-0, `len(d)` the number of entries.
* `str.lower()` is modelled by `py_lower`, restricted to the alphabet of the
  corpus word pattern `[a-ząãéëłńòóôùżA-ZĄÃÉËŁŃÒÓÔÙŻ]` (ASCII letters plus
  the eleven Kashubian diacritic letters); other characters are unchanged.
* `float` ratios are modelled exactly with `ℚ`.
* Fallible code (the unguarded division in `good_turing_smoothing`, which can
  raise `ZeroDivisionError`) returns `Option`.
-/

/-- Lowercasing of one character as Python `str.lower` acts on the characters
of the corpus word pattern: ASCII `A`-`Z` plus the uppercase Kashubian
diacritic letters map to their lowercase forms, all else is unchanged. -/
def pyCharLower (c : Char) : Char :=
  if c = 'Ą' then 'ą'
  else if c = 'Ã' then 'ã'
  else if c = 'É' then 'é'
  else if c = 'Ë' then 'ë'
  else if c = 'Ł' then 'ł'
  else if c = 'Ń' then 'ń'
  else if c = 'Ò' then 'ò'
  else if c = 'Ó' then 'ó'
  else if c = 'Ô' then 'ô'
  else if c = 'Ù' then 'ù'
  else if c = 'Ż' then 'ż'
  else if 'A' ≤ c ∧ c ≤ 'Z' then Char.ofNat (c.toNat + 32)
  else c

/-- Python `word.lower()` applied characterwise (`Blacklist.py` lowercases each token
before any membership test). -/
def py_lower (s : String) : String := ⟨s.data.map pyCharLower⟩

/-- Set `BLACKLIST_WEB_MARKUP` of `Blacklist.py`. -/
def BLACKLIST_WEB_MARKUP : List String :=
  ["html", "div", "span", "class", "style", "href", "alt", "src",
   "table", "tbody", "thead", "tr", "td", "th",
   "left", "right", "center", "top", "bottom", "width", "height",
   "padding", "margin", "border", "background", "bgcolor", "solid",
   "align", "valign",
   "px", "pt", "em", "rem",
   "cellpadding", "cellspacing", "colspan", "rowspan",
   "http", "https", "www", "com", "org", "net", "edu", "gov",
   "text-align", "font-size", "border-bottom", "border-collapse", "gainsboro",
   "html", "htm", "php", "asp", "jpg", "jpeg", "png", "gif", "svg",
   "pdf", "doc", "docx", "txt", "xml", "json",
   "wikitable", "thumb", "thumbnail", "frame", "frameless", "upright",
   "caption", "file", "image", "link", "collapse",
   "nbsp", "amp", "lt", "gt", "quot",
   "ffffff", "efefef", "cccccc", "000000"]

/-- Set `BLACKLIST_ENGLISH` of `Blacklist.py`. -/
def BLACKLIST_ENGLISH : List String :=
  ["the", "of", "and", "or", "in", "on", "at", "for", "from",
   "with", "about", "by", "as", "is", "was", "are", "be", "been",
   "have", "has", "had", "does", "did", "will", "would", "could",
   "should", "may", "might", "can", "must",
   "he", "she", "it", "they", "me", "him", "her",
   "us", "them", "my", "your", "his", "its", "our", "their",
   "new", "world", "live", "best", "central", "history", "archive",
   "records", "image", "gray", "grey", "red", "blue", "green", "black",
   "white", "per", "iron", "stone", "web", "european", "kashubs", "love",
   "bad", "art",
   "publishing", "academic", "imprint", "press", "university",
   "journal", "volume", "page", "edition", "published", "edited",
   "bloomsbury", "maiden", "alfred", "toyota", "linux"]

/-- Set `BLACKLIST_FOREIGN` of `Blacklist.py`. -/
def BLACKLIST_FOREIGN : List String :=
  ["und", "der", "die", "das", "von", "zu", "im", "am", "ist",
   "wird", "werden", "wurde", "wurden",
   "jest", "się", "został", "została", "były", "miał",
   "wends", "sorbs", "outposts",
   "cantharellus", "cibarius", "slav", "też", "pawła"]

/-- Set `BLACKLIST_PROPER_NOUNS` of `Blacklist.py`. -/
def BLACKLIST_PROPER_NOUNS : List String :=
  ["piotr", "paweł", "józef", "jan", "jana", "anna", "maria", "ewa",
   "adam", "marian", "jerzy", "katarzyna", "katarzëna", "dorothee",
   "wilhelm", "bernard", "aleksander", "aleksandra", "stanisław",
   "stanisłôw", "władisłôw", "ryszard", "andrzej", "alojzy", "henrik",
   "dominik", "franciszka",
   "zimmer", "eisenreich", "rachańska", "kreyser", "lorentz", "labùda",
   "borzyszkowski", "susk",
   "toyota", "linux",
   "pwn", "plc", "ossolineum", "multico", "legia"]

/-- Set `BLACKLIST_ABBREVIATIONS` of `Blacklist.py`. -/
def BLACKLIST_ABBREVIATIONS : List String :=
  ["km", "cm", "mm", "m", "dm", "kg", "g", "mg", "l", "ml",
   "isbn", "issn", "doi", "ed", "eds", "vol", "pp", "p",
   "dr", "prof", "mgr", "inż", "hab",
   "nr", "np", "tzw", "itd", "itp", "ok",
   "sg", "pl", "nom", "gen", "dat", "acc", "loc", "inst",
   "wst", "rkj", "ss", "st"]

/-- Set `BLACKLIST_NUMBERS` of `Blacklist.py`. -/
def BLACKLIST_NUMBERS : List String :=
  ["ii", "iii", "iv", "v", "vi", "vii", "viii", "ix", "x",
   "xi", "xii", "xiii", "xiv", "xv", "xvi", "xvii", "xviii", "xix", "xx",
   "xxi", "xxx", "xl", "l", "lx", "lxx", "lxxx", "xc", "c"]

/-- Set `BLACKLIST_CODES` of `Blacklist.py`. -/
def BLACKLIST_CODES : List String :=
  ["en", "de", "pl", "fr", "es", "it", "ru", "cs", "sk", "uk",
   "csb",
   "usa", "gb", "fr", "ru"]

/-- Set `BLACKLIST_SINGLE_CHARS` of `Blacklist.py`. -/
def BLACKLIST_SINGLE_CHARS : List String :=
  ["b", "c", "d", "e", "f", "g", "h", "j", "l", "m", "n",
   "o", "p", "q", "r", "t", "u", "v", "x", "y",
   "pi", "mu", "sigma", "alpha", "beta", "gamma", "delta"]

/-- Union `FINAL_BLACKLIST` of of the eight category sets (membership in the
union is membership in the concatenation). -/
def FINAL_BLACKLIST : List String :=
  BLACKLIST_WEB_MARKUP ++ BLACKLIST_ENGLISH ++ BLACKLIST_FOREIGN ++
  BLACKLIST_PROPER_NOUNS ++ BLACKLIST_ABBREVIATIONS ++ BLACKLIST_NUMBERS ++
  BLACKLIST_CODES ++ BLACKLIST_SINGLE_CHARS

/-- Set `WHITELIST` of `Blacklist.py` (the protected Kashubian words; the Python
set literal repeats a few entries, which is harmless for membership). -/
def WHITELIST : List String :=
  ["w", "z", "s", "k", "ò",
   "i", "a",
   "to", "të", "më", "òn", "òna", "òno", "le",
   "je", "są", "ma", "mô",
   "të", "no", "ja", "co", "to",
   "ã", "é", "ë", "ó", "ô", "ù",
   "ł", "ń", "ż", "ź",
   "ch", "cz", "dz", "dż", "rz", "sz",
   "na", "òd", "do", "pò", "ni", "të", "so", "we",
   "bez", "ale", "neg", "òle", "dlô", "jak", "czi", "ani", "abò",
   "òni", "jich", "jim", "tej", "ten", "tom", "tak", "nie", "më", "më",
   "bëc", "był", "bëła", "są"]

/-- Function `should_keep_word` of `Blacklist.py`: whitelist wins, then blacklist
removes, default keeps. -/
def should_keep_word (word : String) : Bool :=
  let word_lower := py_lower word
  if word_lower ∈ WHITELIST then true
  else if word_lower ∈ FINAL_BLACKLIST then false
  else true

/-- The `removed_by_category` dict of `clean_corpus` (`Blacklist.py`): note it
holds nine counters, including `protected_by_whitelist`, which is incremented
for *kept* whitelisted tokens. -/
structure RemovedByCategory where
  web_markup : Nat
  english : Nat
  foreign : Nat
  proper_nouns : Nat
  abbreviations : Nat
  numbers : Nat
  codes : Nat
  single_chars : Nat
  protected_by_whitelist : Nat
deriving Repr, DecidableEq

/-- The all-zero initial counter dict. -/
def RemovedByCategory.init : RemovedByCategory := ⟨0, 0, 0, 0, 0, 0, 0, 0, 0⟩

/-- Python `sum(removed_by_category.values())`: the sum over all nine entries of the
dict, `protected_by_whitelist` included. -/
def RemovedByCategory.sumValues (r : RemovedByCategory) : Nat :=
  r.web_markup + r.english + r.foreign + r.proper_nouns + r.abbreviations +
  r.numbers + r.codes + r.single_chars + r.protected_by_whitelist

/-- The sum over the eight genuine removal counters only
(`protected_by_whitelist` excluded). -/
def RemovedByCategory.sumRemoved (r : RemovedByCategory) : Nat :=
  r.web_markup + r.english + r.foreign + r.proper_nouns + r.abbreviations +
  r.numbers + r.codes + r.single_chars

/-- The filtering loop of `clean_corpus` (`Blacklist.py`): for each word check
the whitelist first (keep and count as protected), then each blacklist
category in order (drop and count in the first matching category), else keep.
Returns the kept words in order together with the counter dict. -/
def clean_loop : List String → List String × RemovedByCategory
  | [] => ([], RemovedByCategory.init)
  | word :: rest =>
    let prev := clean_loop rest
    let cleaned := prev.1
    let r := prev.2
    let word_lower := py_lower word
    if word_lower ∈ WHITELIST then
      (word :: cleaned,
       { r with protected_by_whitelist := r.protected_by_whitelist + 1 })
    else if word_lower ∈ BLACKLIST_WEB_MARKUP then
      (cleaned, { r with web_markup := r.web_markup + 1 })
    else if word_lower ∈ BLACKLIST_ENGLISH then
      (cleaned, { r with english := r.english + 1 })
    else if word_lower ∈ BLACKLIST_FOREIGN then
      (cleaned, { r with foreign := r.foreign + 1 })
    else if word_lower ∈ BLACKLIST_PROPER_NOUNS then
      (cleaned, { r with proper_nouns := r.proper_nouns + 1 })
    else if word_lower ∈ BLACKLIST_ABBREVIATIONS then
      (cleaned, { r with abbreviations := r.abbreviations + 1 })
    else if word_lower ∈ BLACKLIST_NUMBERS then
      (cleaned, { r with numbers := r.numbers + 1 })
    else if word_lower ∈ BLACKLIST_CODES then
      (cleaned, { r with codes := r.codes + 1 })
    else if word_lower ∈ BLACKLIST_SINGLE_CHARS then
      (cleaned, { r with single_chars := r.single_chars + 1 })
    else
      (word :: cleaned, r)

/-- The `stats` dict returned by `clean_corpus`. -/
structure CleanStats where
  original_words : Nat
  cleaned_words : Nat
  removed_words : Nat
  percentage_removed : ℚ
  removed_by_category : RemovedByCategory
  blacklist_size : Nat
  whitelist_size : Nat
deriving Repr, DecidableEq

/-- Function `clean_corpus` of `Blacklist.py`: filter the word list through the
whitelist/blacklist triage and report statistics. -/
def clean_corpus (words : List String) : List String × CleanStats :=
  let original_count := words.length
  let result := clean_loop words
  let cleaned_words := result.1
  let removed_by_category := result.2
  let removed_count := original_count - cleaned_words.length
  (cleaned_words,
   { original_words := original_count
     cleaned_words := cleaned_words.length
     removed_words := removed_count
     percentage_removed :=
       if original_count > 0 then (removed_count : ℚ) / original_count * 100
       else 0
     removed_by_category := removed_by_category
     blacklist_size := FINAL_BLACKLIST.dedup.length
     whitelist_size := WHITELIST.dedup.length })

/-- The pass underlying `distinctKeys`: collect the elements not seen yet,
in order, remembering the ones already seen. -/
def distinctKeysAux {α : Type} [DecidableEq α] :
    List α → List α → List α
  | _, [] => []
  | seen, a :: rest =>
    if a ∈ seen then distinctKeysAux seen rest
    else a :: distinctKeysAux (a :: seen) rest

/-- The distinct elements of a list in first-occurrence order: the key set of
a Python `Counter`/`set` built by one left-to-right pass. -/
def distinctKeys {α : Type} [DecidableEq α] (l : List α) : List α :=
  distinctKeysAux [] l

/-- Python `Counter(l)` as an association list: each distinct element (in
first-occurrence order) paired with its number of occurrences. -/
def counter {α : Type} [DecidableEq α] (l : List α) : List (α × Nat) :=
  (distinctKeys l).map (fun a => (a, l.count a))

/-- Python `d.get(k, 0)` on an association-list dict. -/
def getD0 {α β : Type} [DecidableEq α] [OfNat β 0] :
    List (α × β) → α → β
  | [], _ => 0
  | (a, v) :: rest, k => if a = k then v else getD0 rest k

/-- The key list of an association-list dict (`k in d` is membership here). -/
def dictKeys {α β : Type} (d : List (α × β)) : List α := d.map Prod.fst

/-- The bigram loop of `Corpus_Analysis.py` `main` (step 4): all adjacent
ordered pairs `(words[i], words[i+1])`. -/
def word_bigrams : List String → List (String × String)
  | w1 :: w2 :: rest => (w1, w2) :: word_bigrams (w2 :: rest)
  | _ => []

/-- The trigram loop of `Corpus_Analysis.py` `main` (step 5): all adjacent
ordered triples `(words[i], words[i+1], words[i+2])`. -/
def word_trigrams : List String → List (String × String × String)
  | w1 :: w2 :: w3 :: rest => (w1, w2, w3) :: word_trigrams (w2 :: w3 :: rest)
  | _ => []

/-- One value of the `lexical_model` dict of `Corpus_Analysis.py` `main`
(step 3). -/
structure LexEntry where
  count : Nat
  probability : ℚ
  percentage : ℚ
deriving Repr, DecidableEq

/-- The `lexical_model` dict: each word of `word_freq = Counter(words)` with
count, probability `count/total_words` and percentage. -/
def lexical_model (words : List String) : List (String × LexEntry) :=
  let total_words := words.length
  (counter words).map (fun p =>
    (p.1, { count := p.2
            probability := (p.2 : ℚ) / total_words
            percentage := (p.2 : ℚ) / total_words * 100 }))

/-- Stable insertion of one entry into a by-count-descending list: the entry
goes after all entries with a count at least as large, as Python's stable
`sorted(key=count, reverse=True)` places it. -/
def insertByCountDesc (x : String × LexEntry) :
    List (String × LexEntry) → List (String × LexEntry)
  | [] => [x]
  | y :: ys =>
    if y.2.count < x.2.count then x :: y :: ys
    else y :: insertByCountDesc x ys

/-- Python `sorted(lexical_model.items(), key=count, reverse=True)`: stable
descending sort by count. -/
def sortByCountDesc : List (String × LexEntry) → List (String × LexEntry)
  | [] => []
  | x :: xs => insertByCountDesc x (sortByCountDesc xs)

/-- The metrics dict returned by `compute_corpus_quality`. -/
structure QualityMetrics where
  type_token_ratio : ℚ
  hapax_legomena : Nat
  hapax_percentage : ℚ
  dis_legomena : Nat
  dis_percentage : ℚ
  avg_word_length : ℚ
  top_10_coverage : ℚ
  top_100_coverage : ℚ
  top_1000_coverage : ℚ
  vocab_growth_rate : ℚ
deriving Repr, DecidableEq

/-- Function `compute_corpus_quality` of `Corpus_Analysis.py`: quality metrics from the
cleaned word list and the lexical model. -/
def compute_corpus_quality (words : List String)
    (lm : List (String × LexEntry)) : QualityMetrics :=
  let total_words := words.length
  let vocab_size := (distinctKeys words).length
  let ttr : ℚ := if total_words > 0 then (vocab_size : ℚ) / total_words else 0
  let hapax := (lm.filter (fun p => p.2.count = 1)).length
  let hapax_percentage : ℚ :=
    if vocab_size > 0 then (hapax : ℚ) / vocab_size * 100 else 0
  let dis_legomena := (lm.filter (fun p => p.2.count = 2)).length
  let dis_percentage : ℚ :=
    if vocab_size > 0 then (dis_legomena : ℚ) / vocab_size * 100 else 0
  let avg_length : ℚ :=
    if total_words > 0 then
      ((words.map String.length).sum : ℚ) / total_words
    else 0
  let sorted_words := sortByCountDesc lm
  let top_10_coverage : ℚ :=
    if total_words > 0 then
      (((sorted_words.take 10).map (fun p => p.2.count)).sum : ℚ)
        / total_words * 100
    else 0
  let top_100_coverage : ℚ :=
    if total_words > 0 then
      (((sorted_words.take 100).map (fun p => p.2.count)).sum : ℚ)
        / total_words * 100
    else 0
  let top_1000_coverage : ℚ :=
    if total_words > 0 then
      (((sorted_words.take 1000).map (fun p => p.2.count)).sum : ℚ)
        / total_words * 100
    else 0
  let vocab_growth_rate : ℚ :=
    if total_words ≥ 1000 then
      let sample_size := min 1000 (total_words / 10)
      let sample_unique := (distinctKeys (words.take sample_size)).length
      (sample_unique : ℚ) / sample_size * 1000
    else ttr * 1000
  { type_token_ratio := ttr
    hapax_legomena := hapax
    hapax_percentage := hapax_percentage
    dis_legomena := dis_legomena
    dis_percentage := dis_percentage
    avg_word_length := avg_length
    top_10_coverage := top_10_coverage
    top_100_coverage := top_100_coverage
    top_1000_coverage := top_1000_coverage
    vocab_growth_rate := vocab_growth_rate }

/-- Function `add_one_smoothed_prob` of `Corpus_Analysis.py`: Laplace-smoothed
probability of one bigram, computed on demand from the two frequency dicts. -/
def add_one_smoothed_prob (w1 w2 : String)
    (bigram_freq : List ((String × String) × Nat))
    (word_freq : List (String × Nat)) : ℚ :=
  let vocab_size := word_freq.length
  let bigram_count := getD0 bigram_freq (w1, w2)
  let w1_count := getD0 word_freq w1
  let smoothed_count := bigram_count + 1
  if w1_count > 0 then (smoothed_count : ℚ) / (w1_count + vocab_size) else 0

/-- Function `laplace_smoothed` as the spec words it (section 4.5): returns
`(bigram_count(w1,w2) + 1) / (unigram_count(w1) + vocabulary_size)` if
`unigram_count(w1) > 0`, else 0. -/
def laplace_smoothed_spec (w1 w2 : String)
    (bigram_table : List ((String × String) × Nat))
    (unigram_table : List (String × Nat)) : ℚ :=
  let bigram_count : Nat := getD0 bigram_table (w1, w2)
  let unigram_count : Nat := getD0 unigram_table w1
  if unigram_count > 0 then
    ((bigram_count : ℚ) + 1)
      / ((unigram_count : ℚ) + unigram_table.length)
  else 0

/-- The loop of `good_turing_smoothing`, iterating over the entries of the
full dict `fof`; the division `((freq + 1) * fof[freq + 1]) / count` raises
`ZeroDivisionError` when `count` is 0, modelled by `none`. -/
def good_turing_go (fof : List (Nat × Nat)) :
    List (Nat × Nat) → Option (List (Nat × ℚ))
  | [] => some []
  | (freq, count) :: rest =>
    if freq + 1 ∈ dictKeys fof then
      if count = 0 then none
      else
        match good_turing_go fof rest with
        | none => none
        | some tail =>
          let succCount : Nat := getD0 fof (freq + 1)
          some ((freq, ((freq + 1 : Nat) : ℚ) * (succCount : ℚ)
                         / (count : ℚ)) :: tail)
    else
      match good_turing_go fof rest with
      | none => none
      | some tail => some ((freq, (freq : ℚ)) :: tail)

/-- Function `good_turing_smoothing` of `Corpus_Analysis.py`: adjusted frequencies
from the frequency-of-frequencies dict; `none` models the unguarded
`ZeroDivisionError`. -/
def good_turing_smoothing (fof : List (Nat × Nat)) :
    Option (List (Nat × ℚ)) :=
  good_turing_go fof fof

/-- The Good-Turing adjustment as the spec words it (section 4.5): for each
observed frequency `f`, `(f+1) × N(f+1) / N(f)` when `f+1` is observed, else
`f` unchanged. -/
def good_turing_adjust_spec (fof : List (Nat × Nat)) : List (Nat × ℚ) :=
  fof.map (fun p =>
    (p.1, if p.1 + 1 ∈ dictKeys fof then
            ((p.1 + 1 : Nat) : ℚ) * ((getD0 fof (p.1 + 1) : Nat) : ℚ)
              / (p.2 : ℚ)
          else (p.1 : ℚ)))

/-- The eight blacklist categories, listed in the fixed order in which
`clean_corpus` tests them. -/
inductive BlacklistCategory where
  | web_markup
  | english
  | foreign
  | proper_nouns
  | abbreviations
  | numbers
  | codes
  | single_chars
deriving DecidableEq, Repr

/-- The word set of each blacklist category. -/
def BlacklistCategory.wordSet : BlacklistCategory → List String
  | .web_markup => BLACKLIST_WEB_MARKUP
  | .english => BLACKLIST_ENGLISH
  | .foreign => BLACKLIST_FOREIGN
  | .proper_nouns => BLACKLIST_PROPER_NOUNS
  | .abbreviations => BLACKLIST_ABBREVIATIONS
  | .numbers => BLACKLIST_NUMBERS
  | .codes => BLACKLIST_CODES
  | .single_chars => BLACKLIST_SINGLE_CHARS

/-- The fixed priority order of the category tests in `clean_corpus`. -/
def categoryOrder : List BlacklistCategory :=
  [.web_markup, .english, .foreign, .proper_nouns, .abbreviations,
   .numbers, .codes, .single_chars]

/-- All blacklist categories containing a lowercased token, in priority
order; the head (if any) is the category `clean_corpus` attributes a removal
to. -/
def blacklistCategoriesOf (word_lower : String) : List BlacklistCategory :=
  categoryOrder.filter (fun c => word_lower ∈ c.wordSet)

/-- The counter dict with exactly the given category's counter incremented
(every other entry, `protected_by_whitelist` included, unchanged). -/
def bumpCategory : BlacklistCategory → RemovedByCategory → RemovedByCategory
  | .web_markup, r => { r with web_markup := r.web_markup + 1 }
  | .english, r => { r with english := r.english + 1 }
  | .foreign, r => { r with foreign := r.foreign + 1 }
  | .proper_nouns, r => { r with proper_nouns := r.proper_nouns + 1 }
  | .abbreviations, r => { r with abbreviations := r.abbreviations + 1 }
  | .numbers, r => { r with numbers := r.numbers + 1 }
  | .codes, r => { r with codes := r.codes + 1 }
  | .single_chars, r => { r with single_chars := r.single_chars + 1 }

/-- The set of observed continuations of `w1` in the bigram table of `ws`:
the second components of the bigrams whose first component is `w1`. -/
def bigramContinuations (ws : List String) (w1 : String) : Finset String :=
  (((word_bigrams ws).filter (fun p => p.1 = w1)).map Prod.snd).toFinset

/-- The sum, over all observed continuations `w2` of `w1`, of the bigram
count of `(w1, w2)`. -/
def bigramPrefixSum (ws : List String) (w1 : String) : Nat :=
  ∑ w2 ∈ bigramContinuations ws w1, (word_bigrams ws).count (w1, w2)

/-- Membership in the combined blacklist is membership in one of the eight
category sets. -/
lemma mem_final_blacklist_iff (wl : String) :
    wl ∈ FINAL_BLACKLIST ↔
      (wl ∈ BLACKLIST_WEB_MARKUP ∨ wl ∈ BLACKLIST_ENGLISH ∨
       wl ∈ BLACKLIST_FOREIGN ∨ wl ∈ BLACKLIST_PROPER_NOUNS ∨
       wl ∈ BLACKLIST_ABBREVIATIONS ∨ wl ∈ BLACKLIST_NUMBERS ∨
       wl ∈ BLACKLIST_CODES ∨ wl ∈ BLACKLIST_SINGLE_CHARS) := by
  simp only [FINAL_BLACKLIST, List.mem_append, or_assoc]

/-- One step of the filtering loop, seen through `should_keep_word`. -/
lemma clean_loop_cons_fst (w : String) (rest : List String) :
    (clean_loop (w :: rest)).1 =
      if should_keep_word w then w :: (clean_loop rest).1
      else (clean_loop rest).1 := by
  simp only [clean_loop, should_keep_word]
  by_cases hw : py_lower w ∈ WHITELIST
  · simp [hw]
  · by_cases hb : py_lower w ∈ FINAL_BLACKLIST
    · split_ifs with h1 h2 h3 h4 h5 h6 h7 h8 <;>
        simp_all [mem_final_blacklist_iff]
    · have h1 : py_lower w ∉ BLACKLIST_WEB_MARKUP :=
        fun h => hb ((mem_final_blacklist_iff _).2 (by tauto))
      have h2 : py_lower w ∉ BLACKLIST_ENGLISH :=
        fun h => hb ((mem_final_blacklist_iff _).2 (by tauto))
      have h3 : py_lower w ∉ BLACKLIST_FOREIGN :=
        fun h => hb ((mem_final_blacklist_iff _).2 (by tauto))
      have h4 : py_lower w ∉ BLACKLIST_PROPER_NOUNS :=
        fun h => hb ((mem_final_blacklist_iff _).2 (by tauto))
      have h5 : py_lower w ∉ BLACKLIST_ABBREVIATIONS :=
        fun h => hb ((mem_final_blacklist_iff _).2 (by tauto))
      have h6 : py_lower w ∉ BLACKLIST_NUMBERS :=
        fun h => hb ((mem_final_blacklist_iff _).2 (by tauto))
      have h7 : py_lower w ∉ BLACKLIST_CODES :=
        fun h => hb ((mem_final_blacklist_iff _).2 (by tauto))
      have h8 : py_lower w ∉ BLACKLIST_SINGLE_CHARS :=
        fun h => hb ((mem_final_blacklist_iff _).2 (by tauto))
      simp [hw, hb, h1, h2, h3, h4, h5, h6, h7, h8]

/-- The kept output of the filtering loop is the `should_keep_word` filter of
the input. -/
lemma clean_loop_fst (ws : List String) :
    (clean_loop ws).1 = ws.filter (fun w => should_keep_word w) := by
  induction ws with
  | nil => rfl
  | cons w rest ih =>
    rw [clean_loop_cons_fst, List.filter_cons]
    by_cases h : should_keep_word w <;> simp [h, ih]

/-- Each loop step either keeps the word or increments exactly one of the
eight removal counters: kept length plus the eight-counter sum is the input
length. -/
lemma clean_loop_length_sumRemoved (ws : List String) :
    (clean_loop ws).1.length + ((clean_loop ws).2).sumRemoved = ws.length := by
  induction ws with
  | nil => rfl
  | cons w rest ih =>
    simp only [RemovedByCategory.sumRemoved] at ih ⊢
    simp only [clean_loop]
    split_ifs <;> simp only [List.length_cons] <;> omega

/-- A whitelisted word is appended to the kept list and only the
`protected_by_whitelist` counter moves. -/
lemma clean_loop_cons_whitelisted {w : String} (rest : List String)
    (h : py_lower w ∈ WHITELIST) :
    clean_loop (w :: rest) =
      (w :: (clean_loop rest).1,
       { (clean_loop rest).2 with protected_by_whitelist :=
           ((clean_loop rest).2).protected_by_whitelist + 1 }) := by
  simp [clean_loop, h]

/-- The first components of the bigram list are the input minus its last
token. -/
lemma map_fst_word_bigrams (ws : List String) :
    (word_bigrams ws).map Prod.fst = ws.dropLast := by
  induction ws with
  | nil => rfl
  | cons a t ih =>
    cases t with
    | nil => rfl
    | cons b u =>
      simp only [word_bigrams, List.map_cons]
      rw [ih]
      rfl

/-- Dropping the last token cannot raise a count. -/
lemma count_dropLast_le (ws : List String) (w1 : String) :
    ws.dropLast.count w1 ≤ ws.count w1 :=
  (List.dropLast_sublist ws).count_le w1

/-- If the corpus does not end in `w1`, dropping the last token keeps the
count of `w1`. -/
lemma count_dropLast_of_ne (ws : List String) (w1 : String)
    (h : ws.getLast? ≠ some w1) : ws.dropLast.count w1 = ws.count w1 := by
  cases ws with
  | nil => rfl
  | cons a t =>
    have hne : (a :: t) ≠ [] := by simp
    conv_rhs => rw [← List.dropLast_append_getLast hne]
    rw [List.count_append]
    have hlast : (a :: t).getLast hne ≠ w1 := by
      intro heq
      exact h (by rw [List.getLast?_eq_getLast _ hne, heq])
    simp [List.count_singleton', hlast]

/-- In a list of pairs whose first components all equal `w1`, counting the
pair `(w1, w2)` is counting `w2` among the second components. -/
lemma count_pair_eq_count_snd {w1 : String} :
    ∀ (l : List (String × String)), (∀ p ∈ l, p.1 = w1) →
      ∀ w2, l.count (w1, w2) = (l.map Prod.snd).count w2 := by
  intro l
  induction l with
  | nil => intro _ w2; rfl
  | cons x t ih =>
    intro h w2
    obtain ⟨x1, x2⟩ := x
    have hx : x1 = w1 := h (x1, x2) (List.mem_cons_self _ t)
    subst hx
    simp only [List.map_cons, List.count_cons,
      ih (fun p hp => h p (List.mem_cons_of_mem _ hp)) w2]
    simp [Prod.ext_iff]

/-- Summing the multiplicities of the distinct elements of a list recovers
its length. -/
lemma sum_count_toFinset {α : Type} [DecidableEq α] (l : List α) :
    ∑ a ∈ l.toFinset, l.count a = l.length := by
  simp

/-- Counting a value among first components is counting the pairs whose
first component is that value. -/
lemma count_map_fst {α β : Type} [DecidableEq α] (l : List (α × β)) (a : α) :
    (l.map Prod.fst).count a = l.countP (fun p => decide (p.1 = a)) := by
  induction l with
  | nil => rfl
  | cons x t ih => simp [List.count_cons, List.countP_cons, ih]

/-- The sum of the bigram counts over the observed continuations of `w1` is
the number of occurrences of `w1` anywhere but corpus-final position. -/
lemma bigramPrefixSum_eq_count_dropLast (ws : List String) (w1 : String) :
    bigramPrefixSum ws w1 = ws.dropLast.count w1 := by
  unfold bigramPrefixSum bigramContinuations
  have hmem : ∀ p ∈ (word_bigrams ws).filter (fun p => p.1 = w1), p.1 = w1 := by
    intro p hp
    simpa using List.of_mem_filter hp
  have h1 : ∀ w2, (word_bigrams ws).count (w1, w2) =
      ((word_bigrams ws).filter (fun p => p.1 = w1)).count (w1, w2) := by
    intro w2
    exact (List.count_filter (by simp)).symm
  calc ∑ w2 ∈ (((word_bigrams ws).filter (fun p => p.1 = w1)).map
          Prod.snd).toFinset, (word_bigrams ws).count (w1, w2)
      = ∑ w2 ∈ (((word_bigrams ws).filter (fun p => p.1 = w1)).map
          Prod.snd).toFinset,
          (((word_bigrams ws).filter (fun p => p.1 = w1)).map
            Prod.snd).count w2 := by
        refine Finset.sum_congr rfl (fun w2 _ => ?_)
        rw [h1 w2, count_pair_eq_count_snd _ hmem w2]
    _ = (((word_bigrams ws).filter (fun p => p.1 = w1)).map
          Prod.snd).length := sum_count_toFinset _
    _ = ((word_bigrams ws).filter (fun p => p.1 = w1)).length :=
        List.length_map _ _
    _ = (word_bigrams ws).countP (fun p => decide (p.1 = w1)) :=
        (List.countP_eq_length_filter _ _).symm
    _ = ((word_bigrams ws).map Prod.fst).count w1 := (count_map_fst _ _).symm
    _ = ws.dropLast.count w1 := by rw [map_fst_word_bigrams]

/-- The kept output of `clean_corpus` is the kept output of its loop. -/
lemma clean_corpus_fst (ws : List String) :
    (clean_corpus ws).1 = (clean_loop ws).1 := rfl

/-- The per-category counters reported by `clean_corpus` are those of its
loop. -/
lemma clean_corpus_removed_by_category (ws : List String) :
    (clean_corpus ws).2.removed_by_category = (clean_loop ws).2 := rfl

/-- C1, counterexample: on the single-token input `["w"]` (a whitelisted
token) the kept length plus `sum(removed_by_category.values())` is 2, not 1,
because the `protected_by_whitelist` entry of `removed_by_category` counts the
kept whitelisted token as well. -/
theorem C1_counterexample :
    ¬ ((clean_corpus ["w"]).1.length +
        ((clean_corpus ["w"]).2.removed_by_category).sumValues =
       (["w"] : List String).length) := by
  decide

/-- C1, amended: for every token list, the kept length plus the sum of the
eight genuine removal counters of `removed_by_category` (all entries except
`protected_by_whitelist`, which counts kept whitelisted tokens) equals the
input length. -/
theorem C1_clean_corpus_length_accounting (tokens : List String) :
    (clean_corpus tokens).1.length +
      ((clean_corpus tokens).2.removed_by_category).sumRemoved =
      tokens.length := by
  rw [clean_corpus_fst, clean_corpus_removed_by_category]
  exact clean_loop_length_sumRemoved tokens

/-- C9: the two triage implementations agree — the kept output of
`clean_corpus` is exactly the `should_keep_word` filter of the input, in
order. -/
theorem C9_clean_corpus_refines_should_keep_word (ws : List String) :
    (clean_corpus ws).1 = ws.filter (fun w => should_keep_word w) := by
  rw [clean_corpus_fst]
  exact clean_loop_fst ws

/-- C2: a token whose lowercased form is whitelisted is always kept:
`should_keep_word` returns true, every occurrence of it survives
`clean_corpus`, and its occurrences never move any of the eight removal
counters. -/
theorem C2_whitelist_always_kept (t : String) (ws : List String)
    (h : py_lower t ∈ WHITELIST) :
    should_keep_word t = true ∧
    (clean_corpus ws).1.count t = ws.count t ∧
    ((clean_corpus (t :: ws)).2.removed_by_category).sumRemoved =
      ((clean_corpus ws).2.removed_by_category).sumRemoved := by
  refine ⟨by simp [should_keep_word, h], ?_, ?_⟩
  · rw [clean_corpus_fst, clean_loop_fst]
    exact List.count_filter (by simp [should_keep_word, h])
  · rw [clean_corpus_removed_by_category, clean_corpus_removed_by_category,
      clean_loop_cons_whitelisted ws h]
    simp [RemovedByCategory.sumRemoved]

/-- C2 witness: at `t = "w"` (whitelisted) and a concrete mixed list. -/
theorem C2_whitelist_always_kept_witness :
    py_lower "w" ∈ WHITELIST ∧
    (should_keep_word "w" = true ∧
     (clean_corpus ["w", "html", "W"]).1.count "w" =
       (["w", "html", "W"] : List String).count "w" ∧
     ((clean_corpus ("w" :: ["w", "html", "W"])).2.removed_by_category).sumRemoved =
       ((clean_corpus ["w", "html", "W"]).2.removed_by_category).sumRemoved) :=
  ⟨by decide, C2_whitelist_always_kept "w" ["w", "html", "W"] (by decide)⟩

/-- C3: in the bigram table of any token list, the sum of the bigram counts
over all observed continuations of `w1` is at most the unigram count of
`w1`, with equality whenever `w1` is not the final token. -/
theorem C3_bigram_prefix_sum (ws : List String) (w1 : String) :
    bigramPrefixSum ws w1 ≤ ws.count w1 ∧
    (ws.getLast? ≠ some w1 → bigramPrefixSum ws w1 = ws.count w1) := by
  refine ⟨?_, fun h => ?_⟩
  · rw [bigramPrefixSum_eq_count_dropLast]
    exact count_dropLast_le ws w1
  · rw [bigramPrefixSum_eq_count_dropLast]
    exact count_dropLast_of_ne ws w1 h

/-- C3 witness: on `["to", "je"]`, whose final token is not `"to"`, the sum
over the continuations of `"to"` equals its unigram count. -/
theorem C3_bigram_prefix_sum_witness :
    (["to", "je"] : List String).getLast? ≠ some "to" ∧
    bigramPrefixSum ["to", "je"] "to" = (["to", "je"] : List String).count "to" :=
  ⟨by decide, (C3_bigram_prefix_sum ["to", "je"] "to").2 (by decide)⟩

/-- C8: a token list shorter than N yields an empty N-gram frequency table
(N = 2 for bigrams, N = 3 for trigrams); building it is total, not an
error. -/
theorem C8_short_input_empty_ngram_table (ws : List String) :
    (ws.length < 2 → counter (word_bigrams ws) = []) ∧
    (ws.length < 3 → counter (word_trigrams ws) = []) := by
  constructor
  · intro h
    have hb : word_bigrams ws = [] := by
      match ws, h with
      | [], _ => rfl
      | [a], _ => rfl
    rw [hb]
    rfl
  · intro h
    have ht : word_trigrams ws = [] := by
      match ws, h with
      | [], _ => rfl
      | [a], _ => rfl
      | [a, b], _ => rfl
    rw [ht]; rfl

/-- C8 witness: at the one-token list `["a"]`, both tables are empty. -/
theorem C8_short_input_empty_ngram_table_witness :
    ((["a"] : List String).length < 2 ∧ counter (word_bigrams ["a"]) = []) ∧
    ((["a"] : List String).length < 3 ∧ counter (word_trigrams ["a"]) = []) :=
  ⟨⟨by decide, (C8_short_input_empty_ngram_table ["a"]).1 (by decide)⟩,
   ⟨by decide, (C8_short_input_empty_ngram_table ["a"]).2 (by decide)⟩⟩

/-- C5: for all arguments, `add_one_smoothed_prob` computes the smoothed
ratio the spec states — `(B(w1,w2)+1) / (U(w1)+|U|)` when `U(w1) > 0`, else
0 — and on the spec's example it yields `(1+1)/(2+2) = 1/2`. -/
theorem C5_add_one_smoothed_prob_correct :
    (∀ (w1 w2 : String) (bigram_freq : List ((String × String) × Nat))
        (word_freq : List (String × Nat)),
      add_one_smoothed_prob w1 w2 bigram_freq word_freq =
        laplace_smoothed_spec w1 w2 bigram_freq word_freq) ∧
    add_one_smoothed_prob "to" "je" [(("to", "je"), 1)] [("to", 2), ("je", 1)]
      = (1 + 1) / (2 + 2) := by
  constructor
  · intro w1 w2 bigram_freq word_freq
    simp only [add_one_smoothed_prob, laplace_smoothed_spec]
    split_ifs with h
    · push_cast
      ring
    · rfl
  · simp [add_one_smoothed_prob, getD0]
    norm_num

/-- C7: on an empty cleaned token list with the (empty) unigram model built
from it, `compute_corpus_quality` is total and every metric defaults to
zero. -/
theorem C7_empty_corpus_zero_metrics :
    compute_corpus_quality [] (lexical_model []) =
      { type_token_ratio := 0
        hapax_legomena := 0
        hapax_percentage := 0
        dis_legomena := 0
        dis_percentage := 0
        avg_word_length := 0
        top_10_coverage := 0
        top_100_coverage := 0
        top_1000_coverage := 0
        vocab_growth_rate := 0 } := by
  simp [compute_corpus_quality, lexical_model, counter, distinctKeys,
    distinctKeysAux, sortByCountDesc, QualityMetrics.mk.injEq]

/-- If every frequency with an observed successor has a nonzero count, the
Good-Turing loop succeeds and returns the spec's per-entry formula. -/
lemma good_turing_go_eq (fof : List (Nat × Nat)) :
    ∀ l : List (Nat × Nat),
      (∀ p ∈ l, p.1 + 1 ∈ dictKeys fof → p.2 ≠ 0) →
      good_turing_go fof l = some (l.map (fun p =>
        (p.1, if p.1 + 1 ∈ dictKeys fof then
                ((p.1 + 1 : Nat) : ℚ) * ((getD0 fof (p.1 + 1) : Nat) : ℚ)
                  / (p.2 : ℚ)
              else (p.1 : ℚ)))) := by
  intro l
  induction l with
  | nil => intro _; rfl
  | cons p t ih =>
    intro h
    obtain ⟨f, c⟩ := p
    have ht : ∀ q ∈ t, q.1 + 1 ∈ dictKeys fof → q.2 ≠ 0 :=
      fun q hq => h q (List.mem_cons_of_mem _ hq)
    simp only [good_turing_go]
    by_cases hk : f + 1 ∈ dictKeys fof
    · have hc : ¬ c = 0 := h (f, c) (List.mem_cons_self _ t) hk
      rw [if_pos hk, if_neg hc, ih ht]
      simp [hk]
    · rw [if_neg hk, ih ht]
      simp [hk]

/-- C6, counterexample: the claim quantifies over every `freq_of_freqs`
mapping, but on `{1: 0, 2: 40}` the code divides by the zero count of
frequency 1 (`ZeroDivisionError`) and returns no mapping at all. -/
theorem C6_counterexample :
    good_turing_smoothing [(1, 0), (2, 40)] = none := by
  decide

/-- C6, amended: for every `freq_of_freqs` mapping in which each frequency
whose successor is also observed has a nonzero count, `good_turing_smoothing`
returns the mapping over the same keys with `adjusted[f] =
(f+1) * N(f+1) / N(f)` when `f+1` is observed and `adjusted[f] = f`
otherwise; on `{1: 100, 2: 40}` it yields `adjusted[1] = 4/5` and
`adjusted[2] = 2`. -/
theorem C6_good_turing_adjust_correct (fof : List (Nat × Nat))
    (h : ∀ p ∈ fof, p.1 + 1 ∈ dictKeys fof → p.2 ≠ 0) :
    good_turing_smoothing fof = some (good_turing_adjust_spec fof) ∧
    good_turing_smoothing [(1, 100), (2, 40)] =
      some [(1, 4/5), (2, 2)] := by
  constructor
  · rw [good_turing_smoothing, good_turing_go_eq fof fof h]
    rfl
  · simp [good_turing_smoothing, good_turing_go, dictKeys, getD0]
    norm_num

/-- C6 witness: the amendment's hypothesis holds at `{1: 100, 2: 40}`. -/
theorem C6_good_turing_adjust_correct_witness :
    good_turing_smoothing [(1, 100), (2, 40)] =
      some (good_turing_adjust_spec [(1, 100), (2, 40)]) ∧
    good_turing_smoothing [(1, 100), (2, 40)] =
      some [(1, 4/5), (2, 2)] :=
  C6_good_turing_adjust_correct [(1, 100), (2, 40)] (by decide)

/-- C10: under the precondition that every frequency whose successor is
observed has a nonzero count, `good_turing_smoothing` is total (the
division-by-zero branch is unreachable); on the violating input
`{1: 0, 2: 40}` the division's divisor is zero and the call fails. -/
theorem C10_good_turing_division_guard :
    (∀ fof : List (Nat × Nat),
      (∀ p ∈ fof, p.1 + 1 ∈ dictKeys fof → p.2 ≠ 0) →
        (good_turing_smoothing fof).isSome = true) ∧
    good_turing_smoothing [(1, 0), (2, 40)] = none := by
  constructor
  · intro fof h
    rw [good_turing_smoothing, good_turing_go_eq fof fof h]
    rfl
  · decide

/-- C10 witness: totality at the concrete precondition-satisfying input
`{1: 100, 2: 40}`. -/
theorem C10_good_turing_division_guard_witness :
    (good_turing_smoothing [(1, 100), (2, 40)]).isSome = true :=
  C10_good_turing_division_guard.1 [(1, 100), (2, 40)] (by decide)

/-- C4: a non-whitelisted token lying in more than one blacklist category is
removed by `clean_corpus`, and the removal is attributed to exactly one
counter — the first matching category in the fixed order web-markup,
english, foreign, proper-nouns, abbreviations, numbers, codes,
single-chars. -/
theorem C4_first_matching_category (w : String) (ws : List String)
    (h1 : py_lower w ∉ WHITELIST)
    (h2 : 2 ≤ (blacklistCategoriesOf (py_lower w)).length) :
    ∃ c, (blacklistCategoriesOf (py_lower w)).head? = some c ∧
      (clean_corpus (w :: ws)).1 = (clean_corpus ws).1 ∧
      (clean_corpus (w :: ws)).2.removed_by_category =
        bumpCategory c ((clean_corpus ws).2.removed_by_category) := by
  rw [clean_corpus_fst, clean_corpus_fst, clean_corpus_removed_by_category,
    clean_corpus_removed_by_category]
  by_cases m1 : py_lower w ∈ BLACKLIST_WEB_MARKUP
  · refine ⟨.web_markup, ?_, ?_, ?_⟩
    · simp [blacklistCategoriesOf, categoryOrder, BlacklistCategory.wordSet, m1]
    · simp [clean_loop, h1, m1]
    · simp [clean_loop, bumpCategory, h1, m1]
  · by_cases m2 : py_lower w ∈ BLACKLIST_ENGLISH
    · refine ⟨.english, ?_, ?_, ?_⟩
      · simp [blacklistCategoriesOf, categoryOrder, BlacklistCategory.wordSet,
          m1, m2]
      · simp [clean_loop, h1, m1, m2]
      · simp [clean_loop, bumpCategory, h1, m1, m2]
    · by_cases m3 : py_lower w ∈ BLACKLIST_FOREIGN
      · refine ⟨.foreign, ?_, ?_, ?_⟩
        · simp [blacklistCategoriesOf, categoryOrder,
            BlacklistCategory.wordSet, m1, m2, m3]
        · simp [clean_loop, h1, m1, m2, m3]
        · simp [clean_loop, bumpCategory, h1, m1, m2, m3]
      · by_cases m4 : py_lower w ∈ BLACKLIST_PROPER_NOUNS
        · refine ⟨.proper_nouns, ?_, ?_, ?_⟩
          · simp [blacklistCategoriesOf, categoryOrder,
              BlacklistCategory.wordSet, m1, m2, m3, m4]
          · simp [clean_loop, h1, m1, m2, m3, m4]
          · simp [clean_loop, bumpCategory, h1, m1, m2, m3, m4]
        · by_cases m5 : py_lower w ∈ BLACKLIST_ABBREVIATIONS
          · refine ⟨.abbreviations, ?_, ?_, ?_⟩
            · simp [blacklistCategoriesOf, categoryOrder,
                BlacklistCategory.wordSet, m1, m2, m3, m4, m5]
            · simp [clean_loop, h1, m1, m2, m3, m4, m5]
            · simp [clean_loop, bumpCategory, h1, m1, m2, m3, m4, m5]
          · by_cases m6 : py_lower w ∈ BLACKLIST_NUMBERS
            · refine ⟨.numbers, ?_, ?_, ?_⟩
              · simp [blacklistCategoriesOf, categoryOrder,
                  BlacklistCategory.wordSet, m1, m2, m3, m4, m5, m6]
              · simp [clean_loop, h1, m1, m2, m3, m4, m5, m6]
              · simp [clean_loop, bumpCategory, h1, m1, m2, m3, m4, m5, m6]
            · by_cases m7 : py_lower w ∈ BLACKLIST_CODES
              · refine ⟨.codes, ?_, ?_, ?_⟩
                · simp [blacklistCategoriesOf, categoryOrder,
                    BlacklistCategory.wordSet, m1, m2, m3, m4, m5, m6, m7]
                · simp [clean_loop, h1, m1, m2, m3, m4, m5, m6, m7]
                · simp [clean_loop, bumpCategory, h1, m1, m2, m3, m4, m5,
                    m6, m7]
              · by_cases m8 : py_lower w ∈ BLACKLIST_SINGLE_CHARS
                · refine ⟨.single_chars, ?_, ?_, ?_⟩
                  · simp [blacklistCategoriesOf, categoryOrder,
                      BlacklistCategory.wordSet, m1, m2, m3, m4, m5, m6,
                      m7, m8]
                  · simp [clean_loop, h1, m1, m2, m3, m4, m5, m6, m7, m8]
                  · simp [clean_loop, bumpCategory, h1, m1, m2, m3, m4, m5,
                      m6, m7, m8]
                · exfalso
                  simp [blacklistCategoriesOf, categoryOrder,
                    BlacklistCategory.wordSet, m1, m2, m3, m4, m5, m6, m7,
                    m8] at h2

/-- C4 witness: `"toyota"` lies in both the english and the proper-nouns
sets and is not whitelisted; its removal is charged to english, the first
match. -/
theorem C4_first_matching_category_witness :
    ∃ c, (blacklistCategoriesOf (py_lower "toyota")).head? = some c ∧
      (clean_corpus ["toyota", "w"]).1 = (clean_corpus ["w"]).1 ∧
      (clean_corpus ["toyota", "w"]).2.removed_by_category =
        bumpCategory c ((clean_corpus ["w"]).2.removed_by_category) :=
  C4_first_matching_category "toyota" ["w"] (by decide) (by decide)
